import Mathlib

/-! Shallow embedding of the two analysis scripts of the `analisis_ventas`
repository: `src/main.py` (`analyze_sales_data`) and `src/anova.py`
(`analisis_anova_completo`).

Modelling conventions.

* A workbook is a list of sheets.  Each sheet carries its sheet name, its
  header row (only the number of columns matters to either script: both
  treat the first two columns positionally), a column of dates and a
  column of sales values.  Dates are modelled as natural numbers already
  coded at month granularity, so `pd.to_datetime` followed by
  `dt.to_period('M')` is the identity in the model.  A missing (NaN)
  sales cell is `none`.
* The filesystem is modelled as `Option Workbook`: `none` is a path that
  does not resolve, in which case `pd.ExcelFile` raises
  `FileNotFoundError`.
* Exceptions escaping a function are modelled with `Except`: an
  `Except.error` result of `analyzeSalesData` is an uncaught Python
  exception propagating out of `analyze_sales_data`.
  `analisis_anova_completo` catches every load exception itself, so its
  embedding is total and records the caught error in its output.
* The statistical library routines the scripts delegate to
  (`scipy.stats.levene`, `scipy.stats.shapiro`, `np.sqrt`,
  `stats.t.ppf`, the OLS fit / `anova_lm` p-value and the Tukey adjusted
  p-values) are external code, not part of this repository; they enter
  the model as an oracle record `StatsLib`.  What the scripts themselves
  compute (data shaping, group means, branch structure, the Tukey mean
  difference sign convention stated by the spec) is embedded directly.
* Console output is not reproduced verbatim; each print site that a
  claim mentions is represented by a Boolean or optional field of the
  output structures.
-/

/-- Significance level fixed by both scripts: `alpha = 0.05`. -/
def alpha : ℚ := 1 / 20

/-- One sheet of the workbook: sheet name, header row, and the first two
columns (dates, month-coded; sales, `none` for a missing value).  Extra
columns beyond the first two never have their contents inspected by
either script, so only their presence is modelled, via the length of
`headers`. -/
structure Sheet where
  name : String
  headers : List String
  fechas : List ℕ
  ventas : List (Option ℚ)
deriving DecidableEq

abbrev Workbook := List Sheet

/-- One row of the combined table: date, sales value (possibly missing),
and the store label taken from the sheet name. -/
structure Registro where
  fecha : ℕ
  ventas : Option ℚ
  store : String
deriving DecidableEq

/-- Rows contributed by one sheet: the first two columns, renamed to the
fixed (date, sales) schema, with the sheet name attached as store label
(`df_temp['Supermercado'] = sheet_name`). -/
def sheetRaw (s : Sheet) : List Registro :=
  (s.fechas.zip s.ventas).map (fun p => { fecha := p.1, ventas := p.2, store := s.name })

/-- Concatenation of all sheets (`pd.concat(all_sales_data, ignore_index=True)`). -/
def rawCombinado (wb : Workbook) : List Registro :=
  (wb.map sheetRaw).flatten

/-- Removal of rows whose sales value is missing
(`dropna(subset=['Ventas'])`). -/
def sinNulos (rs : List Registro) : List Registro :=
  rs.filter (fun r => r.ventas.isSome)

/-- Number of rows of a sheet whose sales cell is not missing. -/
def validRows (s : Sheet) : ℕ :=
  ((s.fechas.zip s.ventas).filter (fun p => p.2.isSome)).length

/-- Errors caught by the `try`/`except` of `analisis_anova_completo`:
`FileNotFoundError`, or any other exception while reading the workbook
(for instance `iloc[:, [0, 1]]` on a sheet with fewer than two columns). -/
inductive LoadError
  | fileNotFound
  | otherError
deriving DecidableEq

/-- Data loading of `analisis_anova_completo` (src/anova.py lines 20-29):
open the workbook, take exactly the first two columns of every sheet
(`iloc[:, [0, 1]]`, which requires at least two columns and ignores any
further ones), rename, attach the sheet name, concatenate and drop rows
with missing sales. -/
def cargarDatos : Option Workbook → Except LoadError (List Registro)
  | none => .error .fileNotFound
  | some wb =>
    if wb.all (fun s => decide (2 ≤ s.headers.length)) then
      .ok (sinNulos (rawCombinado wb))
    else .error .otherError

/-- Mean of a list of rationals (`0` on the empty list, which only occurs
behind guards in the scripts). -/
def meanQ (v : List ℚ) : ℚ := v.sum / (v.length : ℚ)

/-- Sample variance with one delta degree of freedom, the convention of
`pandas.Series.std` squared. -/
def svarQ (v : List ℚ) : ℚ :=
  ((v.map (fun x => (x - meanQ v) ^ 2)).sum) / ((v.length : ℚ) - 1)

/-- Oracle for the statistical library routines the scripts call but do
not implement: square root, the two-sided Student t critical values at
0.975 and 0.995 (`stats.t.ppf`, indexed by degrees of freedom), the
omnibus ANOVA p-value of the fitted one-way model, the two assumption
test p-values, and the Tukey adjusted p-value of a pair of groups. -/
structure StatsLib where
  sqrtQ : ℚ → ℚ
  tppf95 : ℕ → ℚ
  tppf99 : ℕ → ℚ
  anovaP : List Registro → ℚ
  leveneP : List Registro → ℚ
  shapiroP : List Registro → ℚ
  tukeyPadj : String → String → ℚ

/-- Distinct store labels of the combined table, in order of first
appearance (`df_all_sales['Supermercado'].unique()`; only membership and
count are ever used). -/
def uniqueStores (rs : List Registro) : List String := (rs.map (fun r => r.store)).dedup

/-- Non-missing sales values of one store (grouped aggregation skips
missing values, as pandas does). -/
def valoresDe (rs : List Registro) (g : String) : List ℚ :=
  (rs.filter (fun r => r.store == g)).filterMap (fun r => r.ventas)

/-- Mean sales of one store. -/
def groupMean (rs : List Registro) (g : String) : ℚ := meanQ (valoresDe rs g)

/-- One row of the Tukey HSD pairwise results table. -/
structure TukeyRow where
  group1 : String
  group2 : String
  meandiff : ℚ
  padj : ℚ
  reject : Bool
deriving DecidableEq

/-- All unordered pairs of a list, each in the order the elements appear. -/
def pairsOf : List String → List (String × String)
  | [] => []
  | g :: gs => gs.map (fun h => (g, h)) ++ pairsOf gs

/-- Modelled from the spec: `pairwise_tukeyhsd` (statsmodels) is not part
of this repository, so the spec's description of the Post-Hoc Engine is
embedded here.  Per §3 and §4.4 of the spec, the result is one row per
unordered pair of stores, with the mean difference "signed, group2 −
group1 as tested", the family-wise adjusted p-value (abstracted into the
`StatsLib` oracle), and the reject flag set iff that adjusted p-value is
below alpha. -/
def tukeyModel (lib : StatsLib) (rs : List Registro) : List TukeyRow :=
  (pairsOf (uniqueStores rs)).map (fun p =>
    { group1 := p.1, group2 := p.2,
      meandiff := groupMean rs p.2 - groupMean rs p.1,
      padj := lib.tukeyPadj p.1 p.2,
      reject := decide (lib.tukeyPadj p.1 p.2 < alpha) })

/-- Monthly confidence intervals computed for one (store, month) group by
section 1 of `analyze_sales_data`. -/
structure MonthInterval where
  media : ℚ
  se : ℚ
  l95 : ℚ
  u95 : ℚ
  l99 : ℚ
  u99 : ℚ
deriving DecidableEq

/-- Report line for one month: either the computed intervals or, when
`intervalo = none`, the printed "insufficient data" message. -/
structure MonthReport where
  mes : ℕ
  intervalo : Option MonthInterval
deriving DecidableEq

/-- Non-missing sales values of one month of the reference sheet
(the `count` aggregation of pandas counts exactly these). -/
def valoresMes (rows : List (ℕ × Option ℚ)) (m : ℕ) : List ℚ :=
  (rows.filter (fun p => p.1 == m)).filterMap (fun p => p.2)

/-- Monthly sample standard deviation as pandas computes it: defined
(the square root of the sample variance) when at least two non-missing
observations exist, `NaN` (here `none`) otherwise. -/
def desvMes (lib : StatsLib) (rows : List (ℕ × Option ℚ)) (m : ℕ) : Option ℚ :=
  if 2 ≤ (valoresMes rows m).length then some (lib.sqrtQ (svarQ (valoresMes rows m)))
  else none

/-- Confidence-interval computation for one month (src/main.py lines
39-66): if `n_observaciones > 1 and not pd.isna(desviacion_estandar)`,
compute `se = std/sqrt(n)`, the t critical values at `n - 1` degrees of
freedom and the 95% and 99% intervals `mean ± t * se`; otherwise print
the insufficient-data message. -/
def mkMonthReport (lib : StatsLib) (rows : List (ℕ × Option ℚ)) (m : ℕ) : MonthReport :=
  let v := valoresMes rows m
  let n := v.length
  let media := meanQ v
  let desv := desvMes lib rows m
  if 1 < n ∧ desv.isSome then
    let s := desv.getD 0
    let se := s / lib.sqrtQ (n : ℚ)
    let t95 := lib.tppf95 (n - 1)
    let t99 := lib.tppf99 (n - 1)
    { mes := m,
      intervalo := some
        { media := media, se := se,
          l95 := media - t95 * se, u95 := media + t95 * se,
          l99 := media - t99 * se, u99 := media + t99 * se } }
  else { mes := m, intervalo := none }

/-- Months of the reference sheet, one report each (the grouped iteration
of section 1; group order only affects print order). -/
def ciReports (lib : StatsLib) (s : Sheet) : List MonthReport :=
  let rows := s.fechas.zip s.ventas
  ((rows.map (fun p => p.1)).dedup).map (mkMonthReport lib rows)

/-- Uncaught Python exceptions of `analyze_sales_data`: the
`FileNotFoundError` of `pd.ExcelFile` (line 17 has no `try`), and the
`ValueError` of assigning a two-element column list to a sheet that does
not have exactly two columns (lines 24 and 78). -/
inductive PyError
  | fileNotFound
  | valueError
deriving DecidableEq

/-- Section 1 of `analyze_sales_data` (lines 20-71): if the reference
sheet name is among the sheet names, read it (raising `ValueError`
unless it has exactly two columns) and produce the monthly reports;
otherwise print the sheet-not-found message (first component `true`)
and skip the section. -/
def seccion1 (lib : StatsLib) (wb : Workbook) (nombre : String) :
    Except PyError (Bool × List MonthReport) :=
  match wb.find? (fun s => s.name == nombre) with
  | some s =>
    if s.headers.length = 2 then .ok (false, ciReports lib s) else .error .valueError
  | none => .ok (true, [])

/-- The `len(df_all_sales['Supermercado'].unique()) < 2` test of line 84. -/
def pocasTiendas (raw : List Registro) : Bool :=
  decide ((raw.map (fun r => r.store)).dedup.length < 2)

/-- The `df_all_sales['Ventas'].isnull().any()` test of line 86. -/
def hayNulos (raw : List Registro) : Bool :=
  raw.any (fun r => r.ventas.isNone)

/-- Whether the null warning of line 87 is printed: it lives on the
`elif` branch, so it is reached only when there are at least two stores. -/
def advertenciaNulos (raw : List Registro) : Bool :=
  !pocasTiendas raw && hayNulos raw

/-- The combined table as it stands after lines 84-92: nulls are dropped
exactly when the `elif` branch ran; on the fewer-than-two-stores branch
the table keeps its missing values. -/
def dfAnovaDe (raw : List Registro) : List Registro :=
  if advertenciaNulos raw then sinNulos raw else raw

/-- Everything sections 2 and 3 of `analyze_sales_data` decide and print,
as fields.  Fields keep their defaults on paths where the corresponding
program point is never reached. -/
structure RestOutput where
  fewStoresMsg : Bool := false
  nullWarning : Bool := false
  emptyReturn : Bool := false
  olsAttempted : Bool := false
  pValue : ℚ := 0
  rejectH0 : Bool := false
  extremesRun : Bool := false
  highest : String := ""
  lowest : String := ""
  highMean : ℚ := 0
  lowMean : ℚ := 0
  tukeyRan : Bool := false
  comparisonFound : Bool := false
  printedDiff : ℚ := 0
  printedPadj : ℚ := 0
deriving DecidableEq

/-- First element of maximal mean after the descending sort of line 128
(`avg_sales_by_supermarket.index[0]`); earlier element kept on ties. -/
def pickHighest : List (String × ℚ) → String × ℚ
  | [] => ("", 0)
  | x :: xs => xs.foldl (fun a b => if a.2 < b.2 then b else a) x

/-- Last element of the descending sort (`.index[-1]`), the store of
minimal mean. -/
def pickLowest : List (String × ℚ) → String × ℚ
  | [] => ("", 0)
  | x :: xs => xs.foldl (fun a b => if b.2 < a.2 then b else a) x

/-- The Extremes Comparator lookup of lines 151-166: filter the Tukey
table for the pair matching either ordering of (highest, lowest), take
the first match, and negate its `meandiff` exactly when the stored
`group1` is the lowest store.  Returns the printed mean difference and
adjusted p-value, or `none` when no comparison was found. -/
def comparacion (rows : List TukeyRow) (hi lo : String) : Option (ℚ × ℚ) :=
  match rows.filter (fun r =>
      (r.group1 == hi && r.group2 == lo) || (r.group1 == lo && r.group2 == hi)) with
  | [] => none
  | r :: _ => some ((if r.group1 == lo then -r.meandiff else r.meandiff), r.padj)

/-- Per-store mean sales of the combined table
(`df_all_sales.groupby('Supermercado')['Ventas'].mean()`). -/
def mediasDe (df : List Registro) : List (String × ℚ) :=
  (uniqueStores df).map (fun g => (g, groupMean df g))

/-- Section 3 of `analyze_sales_data` (lines 123-189): when the combined
table is non-empty, identify the highest- and lowest-average stores and,
exactly on the `p_value_anova < alpha` branch, run Tukey HSD and look
their pair up. -/
def seccion3 (lib : StatsLib) (df : List Registro) (p : ℚ) (base : RestOutput) :
    RestOutput :=
  if df.isEmpty then base
  else
    let hi := pickHighest (mediasDe df)
    let lo := pickLowest (mediasDe df)
    let base2 : RestOutput :=
      { base with
        extremesRun := true
        highest := hi.fst
        lowest := lo.fst
        highMean := hi.snd
        lowMean := lo.snd }
    if p < alpha then
      match comparacion (tukeyModel lib df) hi.fst lo.fst with
      | some pr =>
        { base2 with
          tukeyRan := true
          comparisonFound := true
          printedDiff := pr.fst
          printedPadj := pr.snd }
      | none => { base2 with tukeyRan := true }
    else base2

/-- Sections 2 and 3 of `analyze_sales_data` (lines 73-189): build the
combined table (raising `ValueError` unless every sheet has exactly two
columns), print the few-stores message or drop nulls (possibly returning
early when nothing remains), then fit the one-way model unconditionally
on the fall-through path and continue with section 3. -/
def seccion23 (lib : StatsLib) (wb : Workbook) : Except PyError RestOutput :=
  if wb.all (fun s => decide (s.headers.length = 2)) then
    let raw := rawCombinado wb
    let few := pocasTiendas raw
    let warn := advertenciaNulos raw
    let df := dfAnovaDe raw
    if warn && df.isEmpty then
      .ok { fewStoresMsg := few, nullWarning := warn, emptyReturn := true }
    else
      let p := lib.anovaP df
      .ok (seccion3 lib df p
        { fewStoresMsg := few, nullWarning := warn, olsAttempted := true,
          pValue := p, rejectH0 := decide (p < alpha) })
  else .error .valueError

/-- Full observable outcome of one `analyze_sales_data` run. -/
structure MainOutput where
  ciMissing : Bool
  ciReports : List MonthReport
  rest : RestOutput
deriving DecidableEq

/-- The entry point of src/main.py.  `file = none` models a path that
does not resolve; the resulting `Except.error` is the uncaught
`FileNotFoundError` of line 17. -/
def analyzeSalesData (lib : StatsLib) (file : Option Workbook) (nombre : String) :
    Except PyError MainOutput :=
  match file with
  | none => .error .fileNotFound
  | some wb =>
    match seccion1 lib wb nombre with
    | .error e => .error e
    | .ok pr =>
      match seccion23 lib wb with
      | .error e => .error e
      | .ok r => .ok { ciMissing := pr.1, ciReports := pr.2, rest := r }

/-- Observable outcome of one `analisis_anova_completo` run.  On a load
error every later field keeps its absent value: nothing else happens
after the `return` in the `except` blocks. -/
structure AnovaOutput where
  loadError : Option LoadError
  leveneOk : Option Bool
  shapiroOk : Option Bool
  imagesWritten : Bool
  pValue : Option ℚ
  rejectH0 : Option Bool
  posthoc : Option (List TukeyRow)
deriving DecidableEq

/-- The entry point of src/anova.py: load (catching every exception),
run the advisory Levene and Shapiro-Wilk checks, write the two plot
files, compute the ANOVA p-value, and run Tukey HSD exactly on the
`p_value_anova < alpha` branch. -/
def analisis_anova_completo (lib : StatsLib) (file : Option Workbook) : AnovaOutput :=
  match cargarDatos file with
  | .error e =>
    { loadError := some e, leveneOk := none, shapiroOk := none,
      imagesWritten := false, pValue := none, rejectH0 := none, posthoc := none }
  | .ok df =>
    let p := lib.anovaP df
    { loadError := none,
      leveneOk := some (decide (alpha < lib.leveneP df)),
      shapiroOk := some (decide (alpha < lib.shapiroP df)),
      imagesWritten := true,
      pValue := some p,
      rejectH0 := some (decide (p < alpha)),
      posthoc := if p < alpha then some (tukeyModel lib df) else none }

/-! Claims section: Concrete fixtures used by witnesses and counterexamples -/

/-- Concrete oracle instance used to evaluate the pipelines on small
inputs.  The ANOVA p-value 1/100 lies below alpha, so the post-hoc
branch is taken. -/
def wLib : StatsLib where
  sqrtQ := fun _ => 1
  tppf95 := fun _ => 2
  tppf99 := fun _ => 3
  anovaP := fun _ => 1 / 100
  leveneP := fun _ => 1 / 2
  shapiroP := fun _ => 1 / 2
  tukeyPadj := fun _ _ => 1 / 50

/-- Oracle whose square root is honest at zero (`sqrt 0 = 0`), for the
degenerate-deviation counterexample. -/
def c5Lib : StatsLib where
  sqrtQ := fun _ => 0
  tppf95 := fun _ => 2
  tppf99 := fun _ => 3
  anovaP := fun _ => 1 / 100
  leveneP := fun _ => 1 / 2
  shapiroP := fun _ => 1 / 2
  tukeyPadj := fun _ _ => 1 / 50

/-- Two-column sheet "A" with constant sales 10. -/
def hojaA : Sheet :=
  { name := "A", headers := ["Fecha", "Ventas"], fechas := [1, 2], ventas := [some 10, some 10] }

/-- Two-column sheet "B" with constant sales 20. -/
def hojaB : Sheet :=
  { name := "B", headers := ["Fecha", "Ventas"], fechas := [1, 2], ventas := [some 20, some 20] }

/-- Workbook with the two stores "A" and "B". -/
def wbAB : Workbook := [hojaA, hojaB]

/-- Workbook with a single store. -/
def wbUno : Workbook := [hojaA]

/-- Sheet with a third column, as a workbook: `anova.py` slices it away,
`main.py`'s two-element column assignment raises `ValueError`. -/
def hojaTres : Sheet :=
  { name := "C", headers := ["col1", "col2", "col3"], fechas := [1], ventas := [some 5] }

/-- Workbook whose only sheet has three columns. -/
def wbTres : Workbook := [hojaTres]

/-! Claims section: C3: behaviour on a path that does not resolve -/

/-- C3 counterexample: the claim says each analysis entry point reports
file-not-found on the console and returns without raising; but
`analyze_sales_data` has no `try`/`except` around `pd.ExcelFile`
(src/main.py line 17), so on a missing file it raises
`FileNotFoundError` out of the function (here: an `Except.error`
result) and prints nothing. -/
theorem C3_counterexample :
    analyzeSalesData wLib none "Santa Ana" = .error .fileNotFound := rfl

/-- C3 as amended: on a path that does not resolve,
`analisis_anova_completo` catches the error, reports file-not-found and
returns with no further output, while `analyze_sales_data` propagates
the `FileNotFoundError` uncaught (and reports nothing). -/
theorem C3_amended_file_not_found (lib : StatsLib) (nombre : String) :
    analyzeSalesData lib none nombre = .error .fileNotFound
    ∧ analisis_anova_completo lib none =
      { loadError := some .fileNotFound, leveneOk := none, shapiroOk := none,
        imagesWritten := false, pValue := none, rejectH0 := none, posthoc := none } :=
  ⟨rfl, rfl⟩

/-! Claims section: C10: a load failure of anova.py leaves no side effect -/

/-- C10: whenever loading fails in `analisis_anova_completo`, for any
reason (file not found or any other exception), the function returns
immediately after printing the error: no image is written, no
assumption test runs, no statistical result is computed. -/
theorem C10_load_failure_no_effects (lib : StatsLib) (file : Option Workbook)
    (e : LoadError) (h : cargarDatos file = .error e) :
    analisis_anova_completo lib file =
      { loadError := some e, leveneOk := none, shapiroOk := none,
        imagesWritten := false, pValue := none, rejectH0 := none, posthoc := none } := by
  unfold analisis_anova_completo
  rw [h]

/-- C10 witness: the missing-file run of `analisis_anova_completo`. -/
theorem C10_load_failure_no_effects_witness :
    analisis_anova_completo wLib none =
      { loadError := some .fileNotFound, leveneOk := none, shapiroOk := none,
        imagesWritten := false, pValue := none, rejectH0 := none, posthoc := none } :=
  C10_load_failure_no_effects wLib none .fileNotFound rfl

/-! Claims section: C8: the assumption tests are advisory only -/

/-- C8: replacing the Levene and Shapiro-Wilk p-value computations by
arbitrary other ones changes neither the ANOVA p-value, nor the
rejection decision, nor whether (and with which table) the post-hoc
analysis runs: the assumption tests only influence the diagnostic
conclusions printed. -/
theorem C8_assumption_tests_advisory (lib : StatsLib)
    (f g : List Registro → ℚ) (file : Option Workbook) :
    (analisis_anova_completo { lib with leveneP := f, shapiroP := g } file).pValue
        = (analisis_anova_completo lib file).pValue
    ∧ (analisis_anova_completo { lib with leveneP := f, shapiroP := g } file).rejectH0
        = (analisis_anova_completo lib file).rejectH0
    ∧ (analisis_anova_completo { lib with leveneP := f, shapiroP := g } file).posthoc
        = (analisis_anova_completo lib file).posthoc := by
  unfold analisis_anova_completo
  cases cargarDatos file <;> exact ⟨rfl, rfl, rfl⟩

/-! Claims section: C9: a missing reference sheet only skips section 1 -/

/-- C9: when the designated reference-store sheet name is not among the
workbook's sheet names, section 1 is skipped with the sheet-not-found
message (`ciMissing = true`, no monthly report), and the run is exactly
the ANOVA and extremes sections over all sheets: the missing sheet
itself never raises and never aborts the pipeline. -/
theorem C9_missing_sheet_skips_ci (lib : StatsLib) (wb : Workbook) (nombre : String)
    (h : ∀ s ∈ wb, s.name ≠ nombre) :
    analyzeSalesData lib (some wb) nombre
      = (seccion23 lib wb).map
          (fun r => { ciMissing := true, ciReports := [], rest := r }) := by
  have hf : wb.find? (fun s => s.name == nombre) = none := by
    rw [List.find?_eq_none]
    intro s hs
    simpa using h s hs
  simp only [analyzeSalesData, seccion1, hf]
  cases seccion23 lib wb <;> rfl

/-- C9 witness: a workbook without any sheet called "Santa Ana". -/
theorem C9_missing_sheet_skips_ci_witness :
    analyzeSalesData wLib (some wbAB) "Santa Ana"
      = (seccion23 wLib wbAB).map
          (fun r => { ciMissing := true, ciReports := [], rest := r }) :=
  C9_missing_sheet_skips_ci wLib wbAB "Santa Ana" (by decide)

/-! Claims section: C4: loader contract and row counts -/

/-- Dropping missing sales from one sheet's rows leaves exactly its
valid-row count. -/
theorem length_sinNulos_sheetRaw (s : Sheet) :
    (sinNulos (sheetRaw s)).length = validRows s := by
  unfold sinNulos sheetRaw validRows
  generalize s.fechas.zip s.ventas = l
  induction l with
  | nil => rfl
  | cons x xs ih =>
    cases hx : x.2 <;>
      simp only [List.map_cons, List.filter_cons, hx, Option.isSome_none,
        Option.isSome_some, List.length_cons, ih] <;> simp [ih]

/-- The cleaned combined table has as many rows as the per-sheet valid
row counts add up to. -/
theorem length_sinNulos_rawCombinado (wb : Workbook) :
    (sinNulos (rawCombinado wb)).length = (wb.map validRows).sum := by
  induction wb with
  | nil => rfl
  | cons s ws ih =>
    have h1 : rawCombinado (s :: ws) = sheetRaw s ++ rawCombinado ws := rfl
    have h2 := length_sinNulos_sheetRaw s
    unfold sinNulos at h2 ih ⊢
    rw [h1, List.filter_append, List.length_append, h2, ih, List.map_cons,
      List.sum_cons]

/-- A list containing two distinct elements has length at least two. -/
theorem two_le_length_of_mem_ne {a b : String} {l : List String}
    (ha : a ∈ l) (hb : b ∈ l) (hab : a ≠ b) : 2 ≤ l.length := by
  match l with
  | [] => cases ha
  | [x] =>
    simp only [List.mem_singleton] at ha hb
    exact absurd (ha.trans hb.symm) hab
  | x :: y :: t => simp [List.length_cons]

/-- A sheet with at least one valid row contributes its name to the
store labels of the combined table. -/
theorem name_mem_rawCombinado {wb : Workbook} {s : Sheet} (hs : s ∈ wb)
    (h : 1 ≤ validRows s) :
    s.name ∈ (rawCombinado wb).map (fun r => r.store) := by
  obtain ⟨p, hp⟩ : ∃ p, p ∈ s.fechas.zip s.ventas := by
    cases hq : s.fechas.zip s.ventas with
    | nil =>
      unfold validRows at h
      rw [hq] at h
      simp at h
    | cons x xs => exact ⟨x, hq ▸ List.mem_cons_self x xs⟩
  refine List.mem_map.mpr ⟨{ fecha := p.1, ventas := p.2, store := s.name }, ?_, rfl⟩
  unfold rawCombinado
  refine List.mem_flatten.mpr ⟨sheetRaw s, List.mem_map.mpr ⟨s, hs, rfl⟩, ?_⟩
  exact List.mem_map.mpr ⟨p, hp, rfl⟩

/-- For a workbook with at least two distinct sheets each holding at
least two valid rows, the table `main.py` hands to the ANOVA fit has
exactly the sum of the per-sheet valid row counts: with two or more
stores present, the `elif` of line 86 drops the nulls whenever any
exist. -/
theorem dfAnovaDe_length (wm : Workbook) (hm2 : 2 ≤ wm.length)
    (hmn : (wm.map (fun s => s.name)).Nodup)
    (hmr : ∀ s ∈ wm, 2 ≤ validRows s) :
    (dfAnovaDe (rawCombinado wm)).length = (wm.map validRows).sum := by
  have hfew : pocasTiendas (rawCombinado wm) = false := by
    match wm, hmn, hmr with
    | s1 :: s2 :: ws, hmn, hmr =>
      have h1 : s1.name ∈ (rawCombinado (s1 :: s2 :: ws)).map (fun r => r.store) :=
        name_mem_rawCombinado (by simp) (le_trans (by norm_num) (hmr s1 (by simp)))
      have h2 : s2.name ∈ (rawCombinado (s1 :: s2 :: ws)).map (fun r => r.store) :=
        name_mem_rawCombinado (by simp) (le_trans (by norm_num) (hmr s2 (by simp)))
      have hne : s1.name ≠ s2.name := by
        rw [List.map_cons, List.map_cons, List.nodup_cons] at hmn
        exact fun he => hmn.1 (he ▸ List.mem_cons_self _ _)
      have hlen := two_le_length_of_mem_ne (List.mem_dedup.mpr h1)
        (List.mem_dedup.mpr h2) hne
      unfold pocasTiendas
      simp only [decide_eq_false_iff_not]
      omega
  have hadv : advertenciaNulos (rawCombinado wm) = hayNulos (rawCombinado wm) := by
    unfold advertenciaNulos
    rw [hfew]
    simp
  unfold dfAnovaDe
  rw [hadv]
  cases hnl : hayNulos (rawCombinado wm) with
  | true => simpa using length_sinNulos_rawCombinado wm
  | false =>
    have heq : sinNulos (rawCombinado wm) = rawCombinado wm := by
      unfold sinNulos
      refine List.filter_eq_self.mpr ?_
      intro r hr
      unfold hayNulos at hnl
      rw [List.any_eq_false] at hnl
      have := hnl r hr
      cases hv : r.ventas with
      | none => rw [hv] at this; simp at this
      | some q => simp
    simp only [Bool.false_eq_true, if_false]
    rw [← heq]
    exact length_sinNulos_rawCombinado wm

/-- C4 as amended: `anova.py`'s loader fulfils the full contract (first
two columns of every sheet regardless of further columns, rename,
label, concatenate, drop missing sales) and its output row count is the
sum of the per-sheet valid row counts; `main.py`'s loader additionally
requires every sheet to have exactly two columns, and on workbooks with
at least two distinct sheets of at least two valid rows each its ANOVA
table also has the summed valid row count. -/
theorem C4_amended_loader_row_count (wa wm : Workbook)
    (ha : ∀ s ∈ wa, 2 ≤ s.headers.length)
    (hm2 : 2 ≤ wm.length)
    (hmn : (wm.map (fun s => s.name)).Nodup)
    (hmr : ∀ s ∈ wm, 2 ≤ validRows s) :
    cargarDatos (some wa) = .ok (sinNulos (rawCombinado wa))
    ∧ (sinNulos (rawCombinado wa)).length = (wa.map validRows).sum
    ∧ (dfAnovaDe (rawCombinado wm)).length = (wm.map validRows).sum := by
  refine ⟨?_, length_sinNulos_rawCombinado wa, dfAnovaDe_length wm hm2 hmn hmr⟩
  have hc : wa.all (fun s => decide (2 ≤ s.headers.length)) = true := by
    rw [List.all_eq_true]
    intro s hs
    exact decide_eq_true (ha s hs)
  simp only [cargarDatos, hc, if_true]

/-- C4 witness: the three-column workbook loads through `anova.py`'s
slicing loader; the two-store workbook satisfies the `main.py` row-count
conclusion. -/
theorem C4_amended_loader_row_count_witness :
    cargarDatos (some wbTres) = .ok (sinNulos (rawCombinado wbTres))
    ∧ (sinNulos (rawCombinado wbTres)).length = (wbTres.map validRows).sum
    ∧ (dfAnovaDe (rawCombinado wbAB)).length = (wbAB.map validRows).sum :=
  C4_amended_loader_row_count wbTres wbAB (by decide) (by decide) (by decide) (by decide)

/-- C4 counterexample: the claim says both loaders take exactly the
first two columns of every sheet regardless of extra columns, but on a
workbook whose sheet has three columns `analyze_sales_data` raises
`ValueError` at the two-element column assignment (line 78), while
`analisis_anova_completo`'s loader succeeds. -/
theorem C4_counterexample :
    analyzeSalesData wLib (some wbTres) "Santa Ana" = .error .valueError
    ∧ (cargarDatos (some wbTres)).isOk = true := ⟨rfl, rfl⟩

/-! Claims section: C5 and C6: monthly confidence intervals -/

/-- Number of non-missing observations of a month. -/
def nMes (rows : List (ℕ × Option ℚ)) (m : ℕ) : ℕ := (valoresMes rows m).length

/-- Monthly mean sales. -/
def mediaMes (rows : List (ℕ × Option ℚ)) (m : ℕ) : ℚ := meanQ (valoresMes rows m)

/-- Standard error of the monthly mean: `std / sqrt(count)`. -/
def seMes (lib : StatsLib) (rows : List (ℕ × Option ℚ)) (m : ℕ) : ℚ :=
  lib.sqrtQ (svarQ (valoresMes rows m)) / lib.sqrtQ ((nMes rows m : ℚ))

/-- The 95% and 99% t-intervals of one month: `mean ± t_crit * se` with
the critical values taken at `count - 1` degrees of freedom. -/
def icMes (lib : StatsLib) (rows : List (ℕ × Option ℚ)) (m : ℕ) : MonthInterval :=
  { media := mediaMes rows m
    se := seMes lib rows m
    l95 := mediaMes rows m - lib.tppf95 (nMes rows m - 1) * seMes lib rows m
    u95 := mediaMes rows m + lib.tppf95 (nMes rows m - 1) * seMes lib rows m
    l99 := mediaMes rows m - lib.tppf99 (nMes rows m - 1) * seMes lib rows m
    u99 := mediaMes rows m + lib.tppf99 (nMes rows m - 1) * seMes lib rows m }

/-- The month report collapses to a single condition: the code's guard
`n > 1 and not isna(std)` holds exactly when the month has at least two
non-missing observations, because the pandas deviation is missing
precisely below two observations; nothing in the guard excludes a
deviation of zero. -/
theorem mkMonthReport_eq (lib : StatsLib) (rows : List (ℕ × Option ℚ)) (m : ℕ) :
    mkMonthReport lib rows m =
      { mes := m
        intervalo :=
          if 2 ≤ nMes rows m then some (icMes lib rows m) else none } := by
  by_cases h2 : 2 ≤ (valoresMes rows m).length
  · have h1 : 1 < (valoresMes rows m).length := h2
    simp [mkMonthReport, desvMes, nMes, icMes, mediaMes, seMes, h2, h1]
  · simp [mkMonthReport, desvMes, nMes, icMes, mediaMes, seMes, h2]

/-- C5 as amended: a (store, month) group produces the 95% and 99%
t-intervals (standard error `std/sqrt(count)`, t critical value at
`count - 1` degrees of freedom, interval `mean ± t_crit * se`) exactly
when its non-missing observation count is at least 2 — for such a group
the pandas standard deviation is always defined, and a deviation of
ZERO still produces a (degenerate) interval; every month with fewer
than two observations is reported as insufficient data, with no
interval and no exception. -/
theorem C5_amended_interval_condition (lib : StatsLib)
    (rows : List (ℕ × Option ℚ)) (m : ℕ) :
    mkMonthReport lib rows m =
      { mes := m
        intervalo :=
          if 2 ≤ nMes rows m then some (icMes lib rows m) else none } :=
  mkMonthReport_eq lib rows m

/-- Month rows of the degenerate counterexample: two equal sales. -/
def filasC5 : List (ℕ × Option ℚ) := [(0, some 5), (0, some 5)]

/-- C5 counterexample: the claim requires the standard deviation to be
non-zero for an interval to be produced; but for a month of two equal
values the variance is 0, the deviation is defined and equals 0
(the honest square root of 0), and the code still produces an
interval. -/
theorem C5_counterexample :
    svarQ (valoresMes filasC5 0) = 0
    ∧ desvMes c5Lib filasC5 0 = some 0
    ∧ (mkMonthReport c5Lib filasC5 0).intervalo.isSome = true := by
  refine ⟨?_, ?_, ?_⟩
  · norm_num [svarQ, valoresMes, filasC5, meanQ, List.filterMap_cons, List.sum_cons,
      List.sum_nil]
  · norm_num [desvMes, valoresMes, filasC5, c5Lib, List.filterMap_cons]
  · norm_num [mkMonthReport, desvMes, valoresMes, filasC5, c5Lib, List.filterMap_cons]

/-- C6: whenever a month produces intervals, the 99% interval is at
least as wide as the 95% one, given that the library's square root is
non-negative and its t critical values are monotone in the confidence
level (t-critical(99%) is at least t-critical(95%) at every degree of
freedom). -/
theorem C6_interval_widths (lib : StatsLib) (rows : List (ℕ × Option ℚ)) (m : ℕ)
    (hsq : ∀ q, 0 ≤ lib.sqrtQ q)
    (h99 : ∀ d, lib.tppf95 d ≤ lib.tppf99 d)
    (iv : MonthInterval)
    (h : (mkMonthReport lib rows m).intervalo = some iv) :
    iv.u95 - iv.l95 ≤ iv.u99 - iv.l99 := by
  rw [mkMonthReport_eq] at h
  by_cases h2 : 2 ≤ nMes rows m
  · simp only [if_pos h2] at h
    injection h with h
    subst h
    have hse : 0 ≤ seMes lib rows m := div_nonneg (hsq _) (hsq _)
    have hmul := mul_le_mul_of_nonneg_right (h99 (nMes rows m - 1)) hse
    simp only [icMes]
    linarith
  · simp only [if_neg h2] at h
    exact Option.noConfusion h

/-- Month rows of the C6 witness: two observations 1 and 3. -/
def filasC6 : List (ℕ × Option ℚ) := [(0, some 1), (0, some 3)]

/-- Interval computed for `filasC6` under the `wLib` oracle. -/
def ivC6 : MonthInterval :=
  { media := 2, se := 1, l95 := 0, u95 := 4, l99 := -1, u99 := 5 }

/-- C6 witness: the concrete month [1, 3] under `wLib`. -/
theorem C6_interval_widths_witness : ivC6.u95 - ivC6.l95 ≤ ivC6.u99 - ivC6.l99 :=
  C6_interval_widths wLib filasC6 0
    (fun q => by norm_num [wLib])
    (fun d => by norm_num [wLib])
    ivC6
    (by norm_num [mkMonthReport, desvMes, valoresMes, filasC6, wLib, meanQ, svarQ, ivC6,
      List.filterMap_cons, List.sum_cons, List.sum_nil])

/-! Claims section: C1: post-hoc run exactly below alpha -/

/-- When every sheet has exactly two columns, section 1 never raises,
whether or not the reference sheet exists. -/
theorem seccion1_ok (lib : StatsLib) (wb : Workbook) (nombre : String)
    (hcols : wb.all (fun s => decide (s.headers.length = 2)) = true) :
    ∃ pr, seccion1 lib wb nombre = .ok pr := by
  unfold seccion1
  cases hf : wb.find? (fun s => s.name == nombre) with
  | none => exact ⟨(true, []), rfl⟩
  | some s =>
    have hs : s ∈ wb := List.mem_of_find?_eq_some hf
    have h2 : s.headers.length = 2 := by
      rw [List.all_eq_true] at hcols
      simpa using hcols s hs
    exact ⟨(false, ciReports lib s), by simp [h2]⟩

/-- Behaviour of section 3 on a non-empty table: the extremes section
runs, the recorded p-value is untouched, and the Tukey branch is taken
exactly when the p-value is strictly below alpha. -/
theorem seccion3_tukeyRan (lib : StatsLib) (df : List Registro) (p : ℚ)
    (base : RestOutput) (hne : df.isEmpty = false) (hbp : base.pValue = p)
    (hbt : base.tukeyRan = false) :
    (seccion3 lib df p base).extremesRun = true
    ∧ (seccion3 lib df p base).pValue = p
    ∧ ((seccion3 lib df p base).tukeyRan = true ↔ p < alpha) := by
  unfold seccion3
  rw [hne]
  by_cases hp : p < alpha
  · cases hc : comparacion (tukeyModel lib df) (pickHighest (mediasDe df)).fst
        (pickLowest (mediasDe df)).fst with
    | none => simp [hp, hc, hbp]
    | some pr => simp [hp, hc, hbp]
  · simp [hp, hbp, hbt]

/-- On runs where the combined table ends up non-empty, sections 2-3
succeed and hand section 3 the post-drop table and its p-value. -/
theorem seccion23_ok (lib : StatsLib) (wb : Workbook)
    (hcols : wb.all (fun s => decide (s.headers.length = 2)) = true)
    (hne : (dfAnovaDe (rawCombinado wb)).isEmpty = false) :
    seccion23 lib wb =
      .ok (seccion3 lib (dfAnovaDe (rawCombinado wb))
        (lib.anovaP (dfAnovaDe (rawCombinado wb)))
        { fewStoresMsg := pocasTiendas (rawCombinado wb)
          nullWarning := advertenciaNulos (rawCombinado wb)
          olsAttempted := true
          pValue := lib.anovaP (dfAnovaDe (rawCombinado wb))
          rejectH0 := decide (lib.anovaP (dfAnovaDe (rawCombinado wb)) < alpha) }) := by
  simp only [seccion23, hcols, hne, Bool.and_false, Bool.false_eq_true, if_false,
    eq_self_iff_true, if_true]

/-- C1: on every loaded dataset reaching the analysis (both scripts),
Tukey HSD runs exactly when the omnibus ANOVA p-value is strictly below
alpha = 0.05; in particular a p-value equal to alpha does not trigger
the post-hoc step, in `analyze_sales_data` and in
`analisis_anova_completo` alike. -/
theorem C1_posthoc_iff (lib : StatsLib) (wb wb2 : Workbook) (nombre : String)
    (hcols : wb.all (fun s => decide (s.headers.length = 2)) = true)
    (hne : (dfAnovaDe (rawCombinado wb)).isEmpty = false)
    (hc2 : wb2.all (fun s => decide (2 ≤ s.headers.length)) = true) :
    ((analyzeSalesData lib (some wb) nombre).toOption.map (fun o => o.rest.tukeyRan)
        = some true
      ↔ lib.anovaP (dfAnovaDe (rawCombinado wb)) < alpha)
    ∧ ((analisis_anova_completo lib (some wb2)).posthoc.isSome = true
      ↔ lib.anovaP (sinNulos (rawCombinado wb2)) < alpha) := by
  constructor
  · obtain ⟨pr, hpr⟩ := seccion1_ok lib wb nombre hcols
    have hr := seccion23_ok lib wb hcols hne
    obtain ⟨_, _, hiff⟩ := seccion3_tukeyRan lib (dfAnovaDe (rawCombinado wb))
      (lib.anovaP (dfAnovaDe (rawCombinado wb)))
      { fewStoresMsg := pocasTiendas (rawCombinado wb)
        nullWarning := advertenciaNulos (rawCombinado wb)
        olsAttempted := true
        pValue := lib.anovaP (dfAnovaDe (rawCombinado wb))
        rejectH0 := decide (lib.anovaP (dfAnovaDe (rawCombinado wb)) < alpha) }
      hne rfl rfl
    simp only [analyzeSalesData, hpr, hr, Except.toOption]
    simpa using hiff
  · have hok : cargarDatos (some wb2) = .ok (sinNulos (rawCombinado wb2)) := by
      simp only [cargarDatos, hc2, if_true]
    simp only [analisis_anova_completo, hok]
    by_cases hp : lib.anovaP (sinNulos (rawCombinado wb2)) < alpha
    · simp [hp]
    · simp [hp]

/-- C1 witness: the two-store workbook under the `wLib` oracle, used for
both entry points. -/
theorem C1_posthoc_iff_witness :
    ((analyzeSalesData wLib (some wbAB) "Santa Ana").toOption.map
        (fun o => o.rest.tukeyRan) = some true
      ↔ wLib.anovaP (dfAnovaDe (rawCombinado wbAB)) < alpha)
    ∧ ((analisis_anova_completo wLib (some wbAB)).posthoc.isSome = true
      ↔ wLib.anovaP (sinNulos (rawCombinado wbAB)) < alpha) :=
  C1_posthoc_iff wLib wbAB wbAB "Santa Ana" (by decide) (by decide) (by decide)

/-! Claims section: C7: single-store workbook does not skip the ANOVA fit -/

/-- C7 (code bug): on a workbook with a single store,
`analyze_sales_data` prints the few-stores message but does NOT skip
the ANOVA sub-analysis: lines 84-92 have no `return` or `else`, so
control falls through and the one-way model is still fitted at line 98
(`olsAttempted = true`), contradicting both the claim and the printed
message itself. -/
theorem C7_few_stores_still_fits :
    (analyzeSalesData wLib (some wbUno) "Santa Ana").toOption.map
        (fun o => (o.rest.fewStoresMsg, o.rest.olsAttempted, o.rest.emptyReturn))
      = some (true, true, false) := by
  have hno : ("A" = "Santa Ana") = False := by decide
  norm_num [hno, analyzeSalesData, seccion1, seccion23, seccion3, rawCombinado, sheetRaw,
    dfAnovaDe, advertenciaNulos, pocasTiendas, hayNulos, sinNulos, uniqueStores,
    mediasDe, groupMean, valoresDe, meanQ, pickHighest, pickLowest, comparacion,
    tukeyModel, pairsOf, alpha, wLib, wbUno, hojaA, Except.toOption,
    List.filterMap_cons, List.sum_cons, List.sum_nil]

/-! Claims section: C2: the extremes comparison sign -/

/-- C2 (code bug): on the two-store workbook, the highest store is "B"
(mean 20) and the lowest "A" (mean 10); the engine stores the pair as
(group1 = "A", group2 = "B") with raw meandiff = mean("B") - mean("A")
= 10 per the spec's group2 - group1 convention; since the stored group1
equals the lowest store, line 165 negates, and the printed difference
is -10 = lowest minus highest: the negation is applied in exactly the
wrong case, so the printed value is never highest minus lowest. -/
theorem C2_sign_flipped :
    (analyzeSalesData wLib (some wbAB) "Santa Ana").toOption.map
        (fun o => (o.rest.highest, o.rest.lowest, o.rest.highMean, o.rest.lowMean,
          o.rest.comparisonFound, o.rest.printedDiff))
      = some ("B", "A", 20, 10, true, -10) := by
  have hno : ("A" = "Santa Ana") = False := by decide
  have hno2 : ("B" = "Santa Ana") = False := by decide
  have hab : ("A" = "B") = False := by decide
  have hba : ("B" = "A") = False := by decide
  norm_num [hno, hno2, hab, hba, analyzeSalesData, seccion1, seccion23, seccion3,
    rawCombinado, sheetRaw, dfAnovaDe, advertenciaNulos, pocasTiendas, hayNulos,
    sinNulos, uniqueStores, mediasDe, groupMean, valoresDe, meanQ, pickHighest,
    pickLowest, comparacion, tukeyModel, pairsOf, alpha, wLib, wbAB, hojaA, hojaB,
    Except.toOption, List.filterMap_cons, List.sum_cons, List.sum_nil,
    List.dedup_cons_of_mem, List.dedup_cons_of_not_mem, List.dedup_nil,
    List.mem_cons, List.mem_singleton, List.not_mem_nil]
